import Mathlib

/-!
Verification of the `cargo-config` profile manager (src/main.rs) against its
natural-language specification.

The program is pure file and path manipulation, so we shallowly embed the
relevant filesystem state: two directories (the profile directory
`~/.cargo/cargo-config/` and the package-manager directory `~/.cargo/`) are
finite maps from file names to inode numbers, and a global inode table maps
inode numbers to file contents.  Hard links are two directory entries sharing
an inode.  Contents are modelled as `List Char` (the byte/char sequence of the
file).  Fallible operations return `Except FsError`.

Each `def` below embeds the correspondingly named Rust function from
src/main.rs; doc comments cite the lines embedded.
-/

/-- File contents, modelled as the character sequence of the file. -/
abbrev Content := List Char

/-- The error kinds of `std::io::ErrorKind` that the program produces. -/
inductive ErrKind where
  | notFound
  | alreadyExists
  | permissionDenied
  | other
deriving DecidableEq, Repr

/-- A `std::io::Error`: a kind plus a message string. -/
structure FsError where
  kind : ErrKind
  msg : String
deriving DecidableEq, Repr

/-- Association-list lookup (first match wins), used to model directories and
the inode table. -/
def alookup {α β : Type} [DecidableEq α] : List (α × β) → α → Option β
  | [], _ => none
  | (k, v) :: rest, a => if k = a then some v else alookup rest a

/-- Association-list update: replace the first binding of `a`, or append a new
binding if none exists. -/
def aset {α β : Type} [DecidableEq α] : List (α × β) → α → β → List (α × β)
  | [], a, b => [(a, b)]
  | (k, v) :: rest, a, b => if k = a then (a, b) :: rest else (k, v) :: aset rest a b

/-- Association-list deletion: remove the first binding of `a`. -/
def aerase {α β : Type} [DecidableEq α] : List (α × β) → α → List (α × β)
  | [], _ => []
  | (k, v) :: rest, a => if k = a then rest else (k, v) :: aerase rest a

/-- Filesystem state relevant to the program: the profile directory
(`~/.cargo/cargo-config/`, file name to inode), the package-manager directory
(`~/.cargo/`, file name to inode), the inode table, and the next fresh inode
number. -/
structure FS where
  profileDir : List (String × Nat)
  cargoDir : List (String × Nat)
  inodes : List (Nat × Content)
  nextInode : Nat
deriving DecidableEq, Repr

deriving instance DecidableEq for Except

/-- Content stored at an inode (empty for an unmapped inode). -/
def readIno (fs : FS) (i : Nat) : Content :=
  (alookup fs.inodes i).getD []

/-- Content of a file of the profile directory, if the file exists. -/
def contentAtProfile (fs : FS) (f : String) : Option Content :=
  (alookup fs.profileDir f).map (readIno fs)

/-- Content of a file of the package-manager directory, if the file exists. -/
def contentAtCargo (fs : FS) (f : String) : Option Content :=
  (alookup fs.cargoDir f).map (readIno fs)

/-- The reserved pointer-file name (src/main.rs line 84). -/
def pointerName : String := "cargo-config-current"

/-- The OS error returned when a file is missing. -/
def notFoundOs : FsError := ⟨.notFound, "No such file or directory"⟩

/-- The OS error returned by `File::create_new` on an existing file. -/
def alreadyExistsOs : FsError := ⟨.alreadyExists, "File exists"⟩

/-- `File::create_new` in the profile directory (src/main.rs lines 77 and 201):
fails with `AlreadyExists` when the file exists, otherwise creates it empty at
a fresh inode.  Returns the new state together with the new inode. -/
def createNewProfile (fs : FS) (fname : String) : Except FsError (FS × Nat) :=
  match alookup fs.profileDir fname with
  | some _ => .error alreadyExistsOs
  | none => .ok ({ fs with
      profileDir := aset fs.profileDir fname fs.nextInode,
      inodes := aset fs.inodes fs.nextInode [],
      nextInode := fs.nextInode + 1 }, fs.nextInode)

/-- Embeds `create_config` (src/main.rs lines 73-79):
`File::create_new(<profile_dir>/<name>.toml)`. -/
def create_config (name : String) (fs : FS) : Except FsError FS :=
  match createNewProfile fs (name ++ ".toml") with
  | .error e => .error e
  | .ok (fs', _) => .ok fs'

/-- `File::create` on a path of the profile directory (src/main.rs line 87):
creates the file empty, truncating it if it already exists. -/
def createFileProfile (fs : FS) (fname : String) : FS :=
  match alookup fs.profileDir fname with
  | some i => { fs with inodes := aset fs.inodes i [] }
  | none => { fs with
      profileDir := aset fs.profileDir fname fs.nextInode,
      inodes := aset fs.inodes fs.nextInode [],
      nextInode := fs.nextInode + 1 }

/-- `File::options().write(true).open(..)` followed by `write!` (src/main.rs
lines 90-92): fails when the file does not exist; otherwise writes `s` from
position 0 WITHOUT truncating, so bytes of the old content beyond `s.length`
survive. -/
def writeNoTrunc (fs : FS) (fname : String) (s : Content) : Except FsError FS :=
  match alookup fs.profileDir fname with
  | none => .error notFoundOs
  | some i => .ok { fs with inodes := aset fs.inodes i (s ++ (readIno fs i).drop s.length) }

/-- `remove_file` on a path of the package-manager directory (src/main.rs
line 97): fails with `NotFound` when the file does not exist. -/
def removeCargoFile (fs : FS) (fname : String) : Except FsError FS :=
  match alookup fs.cargoDir fname with
  | none => .error notFoundOs
  | some _ => .ok { fs with cargoDir := aerase fs.cargoDir fname }

/-- `hard_link(<profile_dir>/src, <cargo_dir>/dst)` (src/main.rs line 101):
fails with `NotFound` when the source does not exist, with `AlreadyExists`
when the destination exists; otherwise the destination entry shares the
source's inode. -/
def hardLinkProfileToCargo (fs : FS) (src dst : String) : Except FsError FS :=
  match alookup fs.profileDir src with
  | none => .error notFoundOs
  | some i =>
    match alookup fs.cargoDir dst with
    | some _ => .error alreadyExistsOs
    | none => .ok { fs with cargoDir := aset fs.cargoDir dst i }

/-- Embeds `switch_config` (src/main.rs lines 81-103): ensure the pointer file
exists, write `name` into it without truncation, remove the package-manager
`config.toml` (propagating ANY failure, including non-existence), and hard
link the profile file into place. -/
def switch_config (name : String) (fs : FS) : Except FsError FS :=
  let fs1 := if (alookup fs.profileDir pointerName).isSome then fs
             else createFileProfile fs pointerName
  match writeNoTrunc fs1 pointerName name.data with
  | .error e => .error e
  | .ok fs2 =>
    match removeCargoFile fs2 "config.toml" with
    | .error e => .error e
    | .ok fs3 => hardLinkProfileToCargo fs3 (name ++ ".toml") "config.toml"

/-- The characters of the separator `".toml"` used by `list_config`. -/
def tomlChars : List Char := ['.', 't', 'o', 'm', 'l']

/-- The part of a file name before the first occurrence of `".toml"` (the
whole name when there is no occurrence).  Embeds
`file_name.split(".toml")...[0]` (src/main.rs lines 120-121). -/
def beforeFirstToml : List Char → List Char
  | [] => []
  | c :: rest => if (c :: rest).take 5 = tomlChars then [] else c :: beforeFirstToml rest

/-- The name displayed by `list_config` for a directory entry. -/
def displayName (f : String) : String := ⟨beforeFirstToml f.data⟩

/-- Embeds `list_config` (src/main.rs lines 105-132): read the pointer file
(failing when it cannot be opened), then return the displayed names of the
profile-directory entries, excluding the reserved pointer-file name. -/
def list_config (fs : FS) : Except FsError (List String) :=
  match alookup fs.profileDir pointerName with
  | none => .error notFoundOs
  | some _ =>
    .ok ((fs.profileDir.map fun p => displayName p.1).filter fun n => n != pointerName)

/-- `fs::remove_file` on a path of the profile directory (src/main.rs
line 138): fails with the OS `NotFound` error when the file does not exist. -/
def removeProfileFile (fs : FS) (fname : String) : Except FsError FS :=
  match alookup fs.profileDir fname with
  | none => .error notFoundOs
  | some _ => .ok { fs with profileDir := aerase fs.profileDir fname }

/-- The `map_err` closure of `remove_config` (src/main.rs lines 138-140): every
underlying error, whatever its kind, is replaced by
`NotFound`/`"<name> does not exist"`. -/
def mapRemoveErr (name : String) (r : Except FsError FS) : Except FsError FS :=
  match r with
  | .ok fs => .ok fs
  | .error _ => .error ⟨.notFound, name ++ " does not exist"⟩

/-- Embeds `remove_config` (src/main.rs lines 134-142). -/
def remove_config (name : String) (fs : FS) : Except FsError FS :=
  mapRemoveErr name (removeProfileFile fs (name ++ ".toml"))

/-- An in-place write through a profile-directory entry: the shared inode's
content is replaced, so every hard link to it sees the new content.  This is
the filesystem effect of editing the profile file in place (as the editor
launched by `edit_config`, src/main.rs lines 144-161, does). -/
def writeInPlaceProfile (fs : FS) (fname : String) (s : Content) : FS :=
  match alookup fs.profileDir fname with
  | some i => { fs with inodes := aset fs.inodes i s }
  | none => fs

/-- Embeds `initialise` (src/main.rs lines 184-209): when the pointer file is
missing and the package-manager directory has a `config.toml`, create the
profile `config` with `File::create_new`, copy the bytes over, and invoke
`switch_config "config"`; otherwise do nothing. -/
def initialise (fs : FS) : Except FsError FS :=
  if (alookup fs.profileDir pointerName).isSome then .ok fs
  else
    match alookup fs.cargoDir "config.toml" with
    | none => .ok fs
    | some ino =>
      match createNewProfile fs "config.toml" with
      | .error e => .error e
      | .ok (fs1, n) =>
        let s := readIno fs1 ino
        switch_config "config" { fs1 with inodes := aset fs1.inodes n s }

/-! ## Association-list lemmas -/

@[simp]
theorem alookup_aset_self {α β : Type} [DecidableEq α] (l : List (α × β)) (a : α) (b : β) :
    alookup (aset l a b) a = some b := by
  induction l with
  | nil => simp [aset, alookup]
  | cons p rest ih =>
    obtain ⟨k, v⟩ := p
    by_cases hk : k = a <;> simp [aset, alookup, hk, ih]

theorem alookup_aset_ne {α β : Type} [DecidableEq α] (l : List (α × β)) (a : α) (b : β)
    (a' : α) (h : a' ≠ a) : alookup (aset l a b) a' = alookup l a' := by
  have h' : ¬ a = a' := fun he => h he.symm
  induction l with
  | nil => simp [aset, alookup, h']
  | cons p rest ih =>
    obtain ⟨k, v⟩ := p
    by_cases hk : k = a
    · subst hk
      simp [aset, alookup, h']
    · simp only [aset, if_neg hk]
      by_cases hk' : k = a' <;> simp [alookup, hk', ih]

theorem aset_aset_self {α β : Type} [DecidableEq α] (l : List (α × β)) (a : α) (b c : β) :
    aset (aset l a b) a c = aset l a c := by
  induction l with
  | nil => simp [aset]
  | cons p rest ih =>
    obtain ⟨k, v⟩ := p
    by_cases hk : k = a <;> simp [aset, hk, ih]

theorem alookup_eq_none_of_not_mem {α β : Type} [DecidableEq α] (l : List (α × β)) (a : α)
    (h : a ∉ l.map Prod.fst) : alookup l a = none := by
  induction l with
  | nil => simp [alookup]
  | cons p rest ih =>
    obtain ⟨k, v⟩ := p
    simp only [List.map_cons, List.mem_cons, not_or] at h
    have hk : ¬ k = a := fun he => h.1 he.symm
    simp [alookup, hk, ih h.2]

theorem alookup_aerase_self {α β : Type} [DecidableEq α] (l : List (α × β)) (a : α)
    (h : (l.map Prod.fst).Nodup) : alookup (aerase l a) a = none := by
  induction l with
  | nil => simp [aerase, alookup]
  | cons p rest ih =>
    obtain ⟨k, v⟩ := p
    simp only [List.map_cons, List.nodup_cons] at h
    by_cases hk : k = a
    · subst hk
      simpa [aerase] using alookup_eq_none_of_not_mem rest k h.1
    · simp [aerase, alookup, hk, ih h.2]

/-! ## Lemmas about the `".toml"` split -/

theorem take5_eq_toml_iff (l : List Char) :
    l.take 5 = tomlChars ↔ ∃ r, l = tomlChars ++ r := by
  constructor
  · intro h
    refine ⟨l.drop 5, ?_⟩
    conv_lhs => rw [← List.take_append_drop 5 l]
    rw [h]
  · rintro ⟨r, rfl⟩
    simp [tomlChars]

theorem beforeFirstToml_min (l n r : List Char) (h : l = n ++ tomlChars ++ r) :
    (beforeFirstToml l).length ≤ n.length := by
  induction l generalizing n with
  | nil =>
    exfalso
    cases n <;> simp [tomlChars] at h
  | cons c rest ih =>
    by_cases h5 : (c :: rest).take 5 = tomlChars
    · simp [beforeFirstToml, h5]
    · cases n with
      | nil =>
        exfalso
        exact h5 ((take5_eq_toml_iff _).2 ⟨r, by simpa using h⟩)
      | cons a n' =>
        simp only [List.cons_append] at h
        injection h with h1 h2
        simp only [beforeFirstToml, if_neg h5, List.length_cons]
        exact Nat.succ_le_succ (ih n' h2)

theorem beforeFirstToml_cases (l : List Char) :
    (∃ r, l = beforeFirstToml l ++ tomlChars ++ r)
    ∨ (beforeFirstToml l = l ∧ ∀ n r, l ≠ n ++ tomlChars ++ r) := by
  induction l with
  | nil =>
    right
    refine ⟨rfl, fun n r h => ?_⟩
    cases n <;> simp [tomlChars] at h
  | cons c rest ih =>
    by_cases h5 : (c :: rest).take 5 = tomlChars
    · left
      obtain ⟨r, hr⟩ := (take5_eq_toml_iff _).1 h5
      have hb : beforeFirstToml (c :: rest) = [] := by
        simp only [beforeFirstToml, if_pos h5]
      exact ⟨r, by rw [hb]; simpa using hr⟩
    · rcases ih with ⟨r, hr⟩ | ⟨he, hno⟩
      · left
        refine ⟨r, ?_⟩
        simp only [beforeFirstToml, if_neg h5, List.cons_append]
        rw [← hr]
      · right
        constructor
        · simp only [beforeFirstToml, if_neg h5, he]
        · intro n r h
          cases n with
          | nil =>
            exact h5 ((take5_eq_toml_iff _).2 ⟨r, by simpa using h⟩)
          | cons a n' =>
            simp only [List.cons_append] at h
            injection h with h1 h2
            exact hno n' r h2

/-- What it means for `n` to be the part of `f` before the FIRST occurrence of
`".toml"`: either `n` is a prefix followed by `".toml"` and no strictly shorter
prefix is, or `".toml"` does not occur in `f` at all and `n` is all of `f`. -/
def IsBeforeFirstToml (f n : List Char) : Prop :=
  ((∃ r, f = n ++ tomlChars ++ r) ∧ ∀ n2 r2, f = n2 ++ tomlChars ++ r2 → n.length ≤ n2.length)
  ∨ (n = f ∧ ∀ n2 r2, f ≠ n2 ++ tomlChars ++ r2)

theorem displayName_isBeforeFirstToml (f : List Char) :
    IsBeforeFirstToml f (beforeFirstToml f) := by
  rcases beforeFirstToml_cases f with ⟨r, hr⟩ | ⟨he, hno⟩
  · exact Or.inl ⟨⟨r, hr⟩, fun n2 r2 h2 => beforeFirstToml_min f n2 r2 h2⟩
  · exact Or.inr ⟨he, hno⟩

/-! ## No profile file collides with the pointer file -/

theorem appendToml_ne_pointer (name : String) : name ++ ".toml" ≠ pointerName := by
  intro h
  have hd : name.data ++ ".toml".data = pointerName.data := by
    rw [← String.data_append, h]
  have hr := congrArg List.reverse hd
  rw [List.reverse_append] at hr
  have h1 : ".toml".data.reverse = ['l', 'm', 'o', 't', '.'] := by decide
  have h2 : pointerName.data.reverse =
      ['t', 'n', 'e', 'r', 'r', 'u', 'c', '-', 'g', 'i', 'f', 'n', 'o', 'c', '-',
       'o', 'g', 'r', 'a', 'c'] := by decide
  rw [h1, h2] at hr
  rw [List.cons_append] at hr
  injection hr with h3 h4
  exact absurd h3 (by decide)

/-! ## Behaviour of `switch_config` -/

theorem switch_config_no_cargo (name : String) (fs : FS)
    (h : alookup fs.cargoDir "config.toml" = none) :
    switch_config name fs = .error notFoundOs := by
  rw [switch_config]
  by_cases hp : (alookup fs.profileDir pointerName).isSome
  · obtain ⟨i, hi⟩ := Option.isSome_iff_exists.mp hp
    simp only [if_pos hp]
    simp only [writeNoTrunc, hi]
    simp only [removeCargoFile]
    simp only [h]
  · have hptr : alookup fs.profileDir pointerName = none :=
      Option.not_isSome_iff_eq_none.mp hp
    simp only [if_neg hp]
    simp only [createFileProfile, hptr]
    simp only [writeNoTrunc, alookup_aset_self]
    simp only [removeCargoFile]
    simp only [h]

theorem switch_config_absent_pointer (name : String) (fs : FS) (m k : Nat)
    (hptr : alookup fs.profileDir pointerName = none)
    (hsrc : alookup fs.profileDir (name ++ ".toml") = some m)
    (hcargo : alookup fs.cargoDir "config.toml" = some k)
    (hnodup : (fs.cargoDir.map Prod.fst).Nodup) :
    switch_config name fs = .ok
      { profileDir := aset fs.profileDir pointerName fs.nextInode,
        cargoDir := aset (aerase fs.cargoDir "config.toml") "config.toml" m,
        inodes := aset fs.inodes fs.nextInode name.data,
        nextInode := fs.nextInode + 1 } := by
  have hp : ¬ ((alookup fs.profileDir pointerName).isSome = true) := by
    rw [hptr]
    simp
  rw [switch_config]
  simp only [if_neg hp]
  simp only [createFileProfile, hptr]
  simp only [writeNoTrunc, alookup_aset_self]
  simp only [readIno, alookup_aset_self, Option.getD_some, List.drop_nil, List.append_nil]
  simp only [removeCargoFile, hcargo]
  simp only [hardLinkProfileToCargo,
    alookup_aset_ne fs.profileDir pointerName fs.nextInode (name ++ ".toml")
      (appendToml_ne_pointer name),
    hsrc, alookup_aerase_self fs.cargoDir "config.toml" hnodup, aset_aset_self]

/-! ## Concrete filesystem states used as witnesses and counterexamples -/

/-- The empty filesystem state. -/
def fsEmpty : FS := ⟨[], [], [], 0⟩

/-- Pointer file and profile `a` exist, but the package-manager directory has
no `config.toml`. -/
def fsC1 : FS := ⟨[(pointerName, 0), ("a.toml", 1)], [], [(0, []), (1, "x".data)], 2⟩

/-- Pointer file currently contains `"ab"`; profiles `ab` and `c` exist and
`config.toml` is linked to `ab`'s profile file. -/
def fsC2 : FS :=
  ⟨[(pointerName, 0), ("ab.toml", 1), ("c.toml", 2)], [("config.toml", 1)],
   [(0, "ab".data), (1, []), (2, [])], 3⟩

/-- Pointer file (empty) and profile `a` (content `"A"`) exist and
`config.toml` is linked to `a`'s profile file. -/
def fsW : FS :=
  ⟨[(pointerName, 0), ("a.toml", 1)], [("config.toml", 1)], [(0, []), (1, "A".data)], 2⟩

/-- No pointer file; an unmanaged `config.toml` with content `"x"` sits in the
package-manager directory. -/
def fsM : FS := ⟨[], [("config.toml", 0)], [(0, "x".data)], 1⟩

/-! ## The claims -/

/-- Claim C1, as stated, is false of the code: `switch_config` propagates the
`NotFound` error of `remove_file` when `config.toml` does not exist, instead
of treating that as a no-op.  Here `config.toml` is absent and the target
profile exists, yet the switch fails with `NotFound`. -/
theorem claim_C1_counterexample :
    alookup fsC1.cargoDir "config.toml" = none
    ∧ alookup fsC1.profileDir ("a" ++ ".toml") = some 1
    ∧ switch_config "a" fsC1 = .error notFoundOs
    ∧ notFoundOs.kind = .notFound := by decide

/-- Claim C1 (amended): during `switch_config name`, the removal step
propagates every removal failure, including non-existence: whenever the
package-manager `config.toml` does not exist, the switch fails with the
`NotFound` error of the removal step. -/
theorem claim_C1_amended (name : String) (fs : FS)
    (h : alookup fs.cargoDir "config.toml" = none) :
    switch_config name fs = .error notFoundOs ∧ notFoundOs.kind = .notFound :=
  ⟨switch_config_no_cargo name fs h, rfl⟩

/-- Witness for the amended claim C1 at a concrete state. -/
theorem claim_C1_witness :
    switch_config "a" fsC1 = .error notFoundOs ∧ notFoundOs.kind = .notFound :=
  claim_C1_amended "a" fsC1 (by decide)

/-- Claim C2: the code violates it.  With prior pointer content `"ab"`, a
successful `switch_config "c"` leaves the pointer file containing `"cb"` (the
write starts at position 0 but does not truncate, so the residual byte `'b'`
of the previous content survives), not exactly `"c"` as the claim states. -/
theorem claim_C2_pointer_residue :
    ((switch_config "c" fsC2).toOption.map fun f => contentAtProfile f pointerName)
      = some (some "cb".data)
    ∧ "cb".data ≠ "c".data := by decide

/-- Claim C5: `create_config name` fails with `AlreadyExists` when the profile
file exists (returning an error, hence touching nothing), and otherwise
creates the profile file empty, leaving the package-manager directory
untouched. -/
theorem claim_C5_create (name : String) (fs : FS) :
    (∀ i, alookup fs.profileDir (name ++ ".toml") = some i →
      create_config name fs = .error alreadyExistsOs ∧ alreadyExistsOs.kind = .alreadyExists)
    ∧ (alookup fs.profileDir (name ++ ".toml") = none →
      ((create_config name fs).toOption.map fun f =>
        (contentAtProfile f (name ++ ".toml"), f.cargoDir)) = some (some [], fs.cargoDir)) := by
  constructor
  · intro i hi
    simp only [create_config, createNewProfile, hi]
    exact ⟨trivial, rfl⟩
  · intro hn
    simp only [create_config, createNewProfile, hn]
    simp [Except.toOption, contentAtProfile, readIno, alookup_aset_self]

/-- Witness for claim C5: duplicate creation of `a` fails on `fsW`, and
creation of `a` on the empty state makes an empty profile file. -/
theorem claim_C5_witness :
    (create_config "a" fsW = .error alreadyExistsOs ∧ alreadyExistsOs.kind = .alreadyExists)
    ∧ ((create_config "a" fsEmpty).toOption.map fun f =>
        (contentAtProfile f ("a" ++ ".toml"), f.cargoDir)) = some (some [], fsEmpty.cargoDir) :=
  ⟨(claim_C5_create "a" fsW).1 1 (by decide), (claim_C5_create "a" fsEmpty).2 (by decide)⟩

/-- Claim C6: `remove_config name` on a missing profile file fails with a
`NotFound` error whose message is exactly `"<name> does not exist"` (which
contains the name); no state is returned, so nothing is deleted. -/
theorem claim_C6_remove_missing (name : String) (fs : FS)
    (h : alookup fs.profileDir (name ++ ".toml") = none) :
    remove_config name fs = .error ⟨.notFound, name ++ " does not exist"⟩ := by
  simp only [remove_config, removeProfileFile, h, mapRemoveErr]

/-- Witness for claim C6 at a concrete state without profile `b`. -/
theorem claim_C6_witness :
    remove_config "b" fsW = .error ⟨.notFound, "b does not exist"⟩ := by
  have h := claim_C6_remove_missing "b" fsW (by decide)
  rw [h]
  decide

/-- Claim C8: `list_config` requires the pointer file: it fails with the
`NotFound` error when the pointer file cannot be read, and succeeds (with the
filtered listing, which does not display the active name) when the pointer
file is present. -/
theorem claim_C8_list_requires_pointer (fs : FS) :
    (alookup fs.profileDir pointerName = none →
      list_config fs = .error notFoundOs ∧ notFoundOs.kind = .notFound)
    ∧ (∀ i, alookup fs.profileDir pointerName = some i →
      list_config fs =
        .ok ((fs.profileDir.map fun p => displayName p.1).filter fun n => n != pointerName)) := by
  constructor
  · intro h
    rw [list_config]
    simp only [h]
    exact ⟨trivial, rfl⟩
  · intro i hi
    rw [list_config]
    simp only [hi]

/-- Witness for claim C8: listing fails on `fsM` (no pointer file) and
succeeds on `fsW` (pointer file present). -/
theorem claim_C8_witness :
    (list_config fsM = .error notFoundOs ∧ notFoundOs.kind = .notFound)
    ∧ list_config fsW =
        .ok ((fsW.profileDir.map fun p => displayName p.1).filter fun n => n != pointerName) :=
  ⟨(claim_C8_list_requires_pointer fsM).1 (by decide),
   (claim_C8_list_requires_pointer fsW).2 0 (by decide)⟩

/-- Claim C9, as stated, is false of the code: `create_config` validates
nothing.  It succeeds for the empty name (creating `".toml"`) and for the
reserved name `cargo-config-current` (creating `"cargo-config-current.toml"`)
on the empty state, so a profile is established although the claim allows
establishment only for non-empty, non-reserved names. -/
theorem claim_C9_counterexample :
    ("" : String).length = 0
    ∧ ((create_config "" fsEmpty).toOption.map fun f => alookup f.profileDir ("" ++ ".toml"))
        = some (some 0)
    ∧ ((create_config pointerName fsEmpty).toOption.map fun f =>
        alookup f.profileDir (pointerName ++ ".toml")) = some (some 0) := by decide

/-- Claim C9 (amended): `create_config name` establishes the profile for EVERY
name whose profile file is absent, with no emptiness or reservation check; the
only true part of the invariant is that the created file `<name>.toml` never
collides with the pointer file `cargo-config-current`, because the reserved
name does not end in `".toml"`. -/
theorem claim_C9_amended (name : String) (fs : FS)
    (h : alookup fs.profileDir (name ++ ".toml") = none) :
    ((create_config name fs).toOption.map fun f => alookup f.profileDir (name ++ ".toml"))
      = some (some fs.nextInode)
    ∧ name ++ ".toml" ≠ pointerName := by
  constructor
  · simp only [create_config, createNewProfile, h]
    simp [Except.toOption, alookup_aset_self]
  · exact appendToml_ne_pointer name

/-- Witness for the amended claim C9 at the empty name on the empty state. -/
theorem claim_C9_witness :
    ((create_config "" fsEmpty).toOption.map fun f => alookup f.profileDir ("" ++ ".toml"))
      = some (some 0)
    ∧ "" ++ ".toml" ≠ pointerName :=
  claim_C9_amended "" fsEmpty (by decide)

/-- Claim C10: the `map_err` closure of `remove_config` replaces EVERY
underlying error, whatever its kind and message (a permission error included),
by `NotFound` with message `"<name> does not exist"`; and `remove_config` is
exactly the underlying deletion composed with that closure. -/
theorem claim_C10_map_err (name : String) (fs : FS) (e : FsError) :
    mapRemoveErr name (.error e) = .error ⟨.notFound, name ++ " does not exist"⟩
    ∧ remove_config name fs = mapRemoveErr name (removeProfileFile fs (name ++ ".toml")) :=
  ⟨rfl, rfl⟩

/-- The filesystem state produced by `switch_config "a"` on `fsW`. -/
def fsW' : FS :=
  ⟨[(pointerName, 0), ("a.toml", 1)], [("config.toml", 1)], [(0, "a".data), (1, "A".data)], 2⟩

/-- Claim C7: a successful `list_config` output is exactly the per-entry part
of the file name before the first `".toml"` occurrence (characterised by
`IsBeforeFirstToml`), with the reserved pointer-file name excluded, and the
reserved name is never in the output. -/
theorem claim_C7_list_names (fs : FS) (l : List String) (h : list_config fs = .ok l) :
    pointerName ∉ l
    ∧ l = ((fs.profileDir.map fun p => displayName p.1).filter fun n => n != pointerName)
    ∧ fs.profileDir.Forall fun p => IsBeforeFirstToml p.1.data (displayName p.1).data := by
  have hl : l = ((fs.profileDir.map fun p => displayName p.1).filter fun n => n != pointerName) := by
    rw [list_config] at h
    cases hp : alookup fs.profileDir pointerName with
    | none =>
      rw [hp] at h
      exact absurd h (by simp)
    | some i =>
      rw [hp] at h
      exact (Except.ok.inj h).symm
  refine ⟨?_, hl, ?_⟩
  · rw [hl]
    intro hmem
    have hm := List.mem_filter.mp hmem
    simp at hm
  · rw [List.forall_iff_forall_mem]
    intro p _
    exact displayName_isBeforeFirstToml p.1.data

/-- Witness for claim C7 at `fsW`, whose listing is `["a"]`. -/
theorem claim_C7_witness :
    pointerName ∉ ["a"]
    ∧ ["a"] = ((fsW.profileDir.map fun p => displayName p.1).filter fun n => n != pointerName)
    ∧ fsW.profileDir.Forall fun p => IsBeforeFirstToml p.1.data (displayName p.1).data :=
  claim_C7_list_names fsW ["a"] (by decide)

/-- Claim C4: after a successful `switch_config name`, the package-manager
`config.toml` and the profile file `<name>.toml` are the same inode (a hard
link), their contents coincide, and an in-place edit of the profile file is
seen through `config.toml` without re-switching. -/
theorem claim_C4_hard_link (name : String) (s : Content) (fs fs' : FS)
    (h : switch_config name fs = .ok fs') :
    alookup fs'.cargoDir "config.toml" = alookup fs'.profileDir (name ++ ".toml")
    ∧ (alookup fs'.cargoDir "config.toml").isSome
    ∧ contentAtCargo fs' "config.toml" = contentAtProfile fs' (name ++ ".toml")
    ∧ contentAtCargo (writeInPlaceProfile fs' (name ++ ".toml") s) "config.toml" = some s := by
  simp only [switch_config] at h
  cases hw : writeNoTrunc
      (if (alookup fs.profileDir pointerName).isSome then fs
       else createFileProfile fs pointerName) pointerName name.data with
  | error e =>
    simp [hw] at h
  | ok fs2 =>
    simp only [hw] at h
    cases hr : removeCargoFile fs2 "config.toml" with
    | error e =>
      simp [hr] at h
    | ok fs3 =>
      simp only [hr] at h
      rw [hardLinkProfileToCargo] at h
      cases hs : alookup fs3.profileDir (name ++ ".toml") with
      | none =>
        simp [hs] at h
      | some i =>
        simp only [hs] at h
        cases hd : alookup fs3.cargoDir "config.toml" with
        | some j =>
          simp [hd] at h
        | none =>
          simp only [hd] at h
          have hfs' : fs' = { fs3 with cargoDir := aset fs3.cargoDir "config.toml" i } :=
            (Except.ok.inj h).symm
          subst hfs'
          refine ⟨?_, ?_, ?_, ?_⟩
          · simp [alookup_aset_self, hs]
          · simp [alookup_aset_self]
          · simp [contentAtCargo, contentAtProfile, alookup_aset_self, hs]
          · rw [writeInPlaceProfile]
            simp only [hs]
            simp [contentAtCargo, readIno, alookup_aset_self]

/-- Witness for claim C4: switching to `a` on `fsW` links `config.toml` to
`a.toml`, and an in-place edit writing `"Z"` is visible through the link. -/
theorem claim_C4_witness :
    alookup fsW'.cargoDir "config.toml" = alookup fsW'.profileDir ("a" ++ ".toml")
    ∧ (alookup fsW'.cargoDir "config.toml").isSome
    ∧ contentAtCargo fsW' "config.toml" = contentAtProfile fsW' ("a" ++ ".toml")
    ∧ contentAtCargo (writeInPlaceProfile fsW' ("a" ++ ".toml") "Z".data) "config.toml"
        = some "Z".data :=
  claim_C4_hard_link "a" "Z".data fsW fsW' (by decide)

/-- Pointer file absent, profile `config` already present, and an unmanaged
`config.toml` in the package-manager directory. -/
def fsDup : FS := ⟨[("config.toml", 5)], [("config.toml", 0)], [(0, "x".data), (5, "y".data)], 6⟩

/-- Claim C3: with no pointer file and a pre-existing `config.toml` of inode
`ino`, `initialise` creates the profile `config` with the original content
(failing with `AlreadyExists` when a `config` profile exists) and switches to
it, so the pointer file contains `config` and the package-manager
`config.toml` shares an inode with the new profile file; and with the pointer
file present and no pre-existing `config.toml`, `initialise` changes
nothing. -/
theorem claim_C3_initialise (fs : FS) (ino : Nat) :
    (alookup fs.profileDir pointerName = none →
     alookup fs.cargoDir "config.toml" = some ino →
     ino < fs.nextInode →
     (fs.cargoDir.map Prod.fst).Nodup →
       ((alookup fs.profileDir "config.toml" = none →
          ((initialise fs).toOption.map fun f =>
            (contentAtProfile f "config.toml", contentAtProfile f pointerName,
             alookup f.profileDir "config.toml", alookup f.cargoDir "config.toml"))
            = some (some (readIno fs ino), some "config".data,
                    some fs.nextInode, some fs.nextInode))
        ∧ (∀ j, alookup fs.profileDir "config.toml" = some j →
            initialise fs = .error alreadyExistsOs ∧ alreadyExistsOs.kind = .alreadyExists)))
    ∧ ((alookup fs.profileDir pointerName).isSome →
       alookup fs.cargoDir "config.toml" = none →
       initialise fs = .ok fs) := by
  constructor
  · intro hptr hcfg hfresh hnodup
    have hp : ¬ ((alookup fs.profileDir pointerName).isSome = true) := by
      rw [hptr]
      simp
    constructor
    · intro hnone
      rw [initialise, if_neg hp]
      simp only [hcfg, createNewProfile, hnone, readIno]
      rw [aset_aset_self]
      rw [alookup_aset_ne fs.inodes fs.nextInode [] ino (Nat.ne_of_lt hfresh)]
      have hne1 : pointerName ≠ ("config.toml" : String) := by decide
      have hne2 : ("config.toml" : String) ≠ pointerName := by decide
      have hcc : (("config" : String) ++ ".toml") = "config.toml" := by decide
      have hsw := switch_config_absent_pointer "config"
        { profileDir := aset fs.profileDir "config.toml" fs.nextInode,
          cargoDir := fs.cargoDir,
          inodes := aset fs.inodes fs.nextInode ((alookup fs.inodes ino).getD []),
          nextInode := fs.nextInode + 1 }
        fs.nextInode ino
        (by simpa [alookup_aset_ne fs.profileDir "config.toml" fs.nextInode pointerName hne1]
          using hptr)
        (by rw [hcc]; exact alookup_aset_self fs.profileDir "config.toml" fs.nextInode)
        (by simpa using hcfg)
        (by simpa using hnodup)
      rw [hsw]
      have e1 := alookup_aset_ne (aset fs.profileDir "config.toml" fs.nextInode) pointerName
        (fs.nextInode + 1) "config.toml" hne2
      have e2 := alookup_aset_ne (aset fs.inodes fs.nextInode ((alookup fs.inodes ino).getD []))
        (fs.nextInode + 1) "config".data fs.nextInode (Nat.ne_of_lt (Nat.lt_succ_self _))
      simp [Except.toOption, contentAtProfile, contentAtCargo, readIno, e1, e2,
        alookup_aset_self]
    · intro j hj
      rw [initialise, if_neg hp]
      simp only [hcfg, createNewProfile, hj]
      exact ⟨trivial, rfl⟩
  · intro hp2 _
    rw [initialise, if_pos hp2]

/-- Witness for claim C3: migration on `fsM` produces profile `config` with
content `"x"`, pointer content `config`, and a shared inode; on `fsDup` it
fails with `AlreadyExists`; on `fsC1` (pointer present) it changes nothing. -/
theorem claim_C3_witness :
    ((initialise fsM).toOption.map fun f =>
      (contentAtProfile f "config.toml", contentAtProfile f pointerName,
       alookup f.profileDir "config.toml", alookup f.cargoDir "config.toml"))
      = some (some "x".data, some "config".data, some 1, some 1)
    ∧ initialise fsDup = .error alreadyExistsOs
    ∧ initialise fsC1 = .ok fsC1 := by
  refine ⟨?_, ?_, ?_⟩
  · have h := ((claim_C3_initialise fsM 0).1 (by decide) (by decide) (by decide)
      (by decide)).1 (by decide)
    exact h.trans (by decide)
  · exact (((claim_C3_initialise fsDup 0).1 (by decide) (by decide) (by decide)
      (by decide)).2 5 (by decide)).1
  · exact (claim_C3_initialise fsC1 0).2 (by decide) (by decide)

/-- Witness for claim C10: a permission-denied error from the underlying
deletion is reported as `NotFound` with message `"a does not exist"`. -/
theorem claim_C10_witness :
    mapRemoveErr "a" (.error ⟨.permissionDenied, "denied"⟩)
      = .error ⟨.notFound, "a does not exist"⟩
    ∧ remove_config "a" fsW = mapRemoveErr "a" (removeProfileFile fsW ("a" ++ ".toml")) := by
  have h := claim_C10_map_err "a" fsW ⟨.permissionDenied, "denied"⟩
  exact ⟨h.1.trans (by decide), h.2⟩
